import Mathlib

/-!
Shallow embedding of the cylinder authenticity-verification and scan-auditing
core of the greenwells backend (src/backend/orders/models.py, views.py,
serializers.py), together with theorems settling the frozen claims about it.

Conventions of the embedding:
* wall-clock instants are integers (seconds); calendar dates are explicit
  (year, month, day) triples compared lexicographically, so that Python's
  `date.replace(year=...)` is a plain field update;
* Python floats carrying geocoordinates and capacities are embedded as
  rationals (the code only compares and subtracts them);
* Django query sets are lists; `Cylinder.objects.get(...)`/`filter(...).first()`
  become `List.find?`; the `CylinderScan` default ordering `-scan_timestamp`
  is embedded by an explicit maximum-timestamp selection;
* an uncaught Python exception inside a handler is the `internalError` outcome
  (the views wrap their bodies in `try/except` returning HTTP 500).
-/

namespace Greenwells

/-- Lexicographically ordered calendar date (mirrors Python `datetime.date`). -/
structure Date where
  year : Int
  month : Nat
  day : Nat
deriving DecidableEq, Repr

/-- Python `date` comparison: lexicographic on (year, month, day). -/
def Date.ltb (a b : Date) : Bool :=
  (a.year < b.year) ||
  (a.year == b.year && a.month < b.month) ||
  (a.year == b.year && a.month == b.month && a.day < b.day)

/-- Python `date` non-strict comparison. -/
def Date.leb (a b : Date) : Bool :=
  a.ltb b || a == b

/-- Python `date.replace(year = year + n)` (the source only uses it on dates
where the result is again a valid date). -/
def Date.addYears (d : Date) (n : Int) : Date :=
  { d with year := d.year + n }

/-- Cylinder lifecycle status, `Cylinder.STATUS_CHOICES` in models.py. -/
inductive Status
  | ACTIVE | FILLED | IN_DELIVERY | EMPTY | MAINTENANCE | RETIRED | STOLEN
deriving DecidableEq, Repr

/-- Scan channel, `CylinderScan.SCAN_TYPE_CHOICES`. -/
inductive ScanType
  | QR | RFID | MANUAL
deriving DecidableEq, Repr

/-- The `code_type` string handed to `Cylinder.verify_authenticity`
(`scan_type.lower()` in views.py: "qr", "rfid" or "manual"). -/
inductive CodeType
  | qr | rfid | manual
deriving DecidableEq, Repr

/-- `scan_type.lower()` as used at the verify_authenticity call site. -/
def ScanType.toCodeType : ScanType → CodeType
  | .QR => .qr
  | .RFID => .rfid
  | .MANUAL => .manual

/-- Scan outcome classification, `CylinderScan.SCAN_RESULT_CHOICES`. -/
inductive ScanResult
  | SUCCESS | FAILED | SUSPICIOUS | TAMPERED | EXPIRED | STOLEN
deriving DecidableEq, Repr

/-- The fields of the `Cylinder` model row that the verification and
scan-auditing core reads or writes. -/
structure Cylinder where
  id : Nat
  serial_number : String
  qr_code : String
  rfid_tag : String
  auth_hash : String
  secret_key : String
  cylinder_type : String
  capacity_kg : ℚ
  manufacturer : String
  manufacturing_date : Date
  expiry_date : Date
  status : Status
  current_customer : Option Nat
  current_order : Option Nat
  last_known_location : String
  last_scanned_at : Option Int
  last_scanned_by : Option Nat
  total_fills : Nat
  total_scans : Nat
  is_authentic : Bool
  is_tampered : Bool
deriving DecidableEq, Repr

/-- `Cylinder.verify_authenticity(code, code_type)` from models.py, with the
wall-clock date passed explicitly (`timezone.now().date()`). Returns the
`(is_valid, message)` pair. -/
def Cylinder.verify_authenticity (c : Cylinder) (code : String) (code_type : CodeType)
    (today : Date) : Bool × String :=
  if code_type == .qr && c.qr_code != code then
    (false, "Invalid QR code")
  else if code_type == .rfid && c.rfid_tag != code then
    (false, "Invalid RFID tag")
  else if c.is_tampered then
    (false, "Cylinder shows signs of tampering")
  else if !c.is_authentic then
    (false, "Cylinder marked as non-authentic")
  else if c.status == .RETIRED then
    (false, "Cylinder has been retired")
  else if c.status == .STOLEN then
    (false, "Cylinder reported as stolen/lost")
  else if c.expiry_date.ltb today then
    (false, "Cylinder has expired - requires inspection")
  else
    (true, "Cylinder verified successfully")

/-- The `scan_result` derivation in `scan_cylinder` (views.py lines 839-849). -/
def deriveScanResult (is_valid : Bool) (c : Cylinder) (today : Date) : ScanResult :=
  if is_valid then .SUCCESS
  else if c.is_tampered then .TAMPERED
  else if c.status == .STOLEN then .STOLEN
  else if c.expiry_date.ltb today then .EXPIRED
  else .FAILED

/-- The fresh random material one `Cylinder.save()` call can draw:
the two `uuid.uuid4().hex.upper()[:16]` strings and the
`secrets.token_urlsafe(64)` secret. -/
structure FreshCodes where
  qr_hex : String
  rfid_hex : String
  secret : String
deriving DecidableEq, Repr

/-- `Cylinder.save()` from models.py: generate each of the four security
fields only when it is still empty (Python truthiness of the stored string),
then persist. `hashF` abstracts the `hashlib.sha256(...).hexdigest()`
digest function. -/
def modelSave (hashF : String → String) (fresh : FreshCodes) (c : Cylinder) : Cylinder :=
  let c1 := if c.qr_code == "" then { c with qr_code := "QR-" ++ fresh.qr_hex } else c
  let c2 := if c1.rfid_tag == "" then { c1 with rfid_tag := "RFID-" ++ fresh.rfid_hex } else c1
  let c3 := if c2.secret_key == "" then { c2 with secret_key := fresh.secret } else c2
  if c3.auth_hash == "" then
    let data := c3.serial_number ++ c3.qr_code ++ c3.rfid_tag ++ c3.secret_key
    { c3 with auth_hash := hashF data }
  else c3

/-- `Cylinder.generate_auth_token()`: `sha256(auth_hash + timestamp)` and the
timestamp, colon separated. -/
def generate_auth_token (hashF : String → String) (c : Cylinder) (now : Int) : String :=
  hashF (c.auth_hash ++ toString now) ++ ":" ++ toString now

/-- One `CylinderScan` row (the scan ledger). -/
structure ScanEvent where
  cylinder_id : Nat
  scan_type : ScanType
  scan_result : ScanResult
  scanned_by : Nat
  scanned_code : String
  scan_timestamp : Int
  scan_location_lat : Option ℚ
  scan_location_lng : Option ℚ
  scan_location_address : String
  verification_message : String
  auth_token : String
  is_suspicious : Bool
  suspicious_reason : String
  related_order : Option Nat
deriving DecidableEq, Repr

/-- `CylinderHistory.EVENT_TYPE_CHOICES` (the ones the core writes). -/
inductive EventType
  | REGISTERED | SCANNED | STATUS_CHANGE | DELIVERED | CUSTOMER_ASSIGNED
deriving DecidableEq, Repr

/-- One `CylinderHistory` row (the lifecycle ledger), with the
`verification_data` JSON payload written by `scan_cylinder` flattened into
optional fields. -/
structure HistoryEvent where
  cylinder_id : Nat
  event_type : EventType
  performed_by : Nat
  customer : Option Nat
  order : Option Nat
  previous_status : Option Status
  new_status : Option Status
  location : String
  notes : String
  verification_scan_result : Option ScanResult
  verification_is_suspicious : Option Bool
  verification_lat : Option ℚ
  verification_lng : Option ℚ
deriving DecidableEq, Repr

/-- A row of the out-of-core `Order` table, at the boundary the core reads. -/
structure OrderRow where
  id : Nat
  customer : Nat
  order_status : String
deriving DecidableEq, Repr

/-- A row of the out-of-core `User` table, at the boundary the core reads. -/
structure UserRow where
  id : Nat
  role : String
deriving DecidableEq, Repr

/-- The persistent store the core operates on: the cylinder table plus the two
append-only ledgers, and the boundary tables for orders and users. New ledger
rows are prepended. -/
structure DB where
  cylinders : List Cylinder
  scans : List ScanEvent
  history : List HistoryEvent
  orders : List OrderRow
  users : List UserRow
deriving DecidableEq, Repr

/-- Replace the cylinder row with the same primary key (the ORM `save()` on an
existing row). -/
def DB.putCylinder (db : DB) (c : Cylinder) : DB :=
  { db with cylinders := db.cylinders.map (fun x => if x.id == c.id then c else x) }

/-- Python `str.strip()` (whitespace fragment), character-list level so that
concrete witnesses evaluate inside the kernel. -/
def pythonStrip (s : String) : String :=
  String.mk (((s.data.dropWhile Char.isWhitespace).reverse.dropWhile Char.isWhitespace).reverse)

/-- Python `str.upper()` (ASCII fragment), character-list level. -/
def pythonUpper (s : String) : String :=
  String.mk (s.data.map Char.toUpper)

/-- Python `str.replace("-", "")`: drop every hyphen. -/
def removeHyphens (s : String) : String :=
  String.mk (s.data.filter (fun ch => ch != '-'))

/-- Python `str.isalnum()` restricted to the ASCII fragment the spec's
character class speaks about: nonempty and every character alphanumeric. -/
def pyIsAlnum (s : String) : Bool :=
  s.length != 0 && s.toList.all Char.isAlphanum

/-- Python truthiness of an optional float (`0.0` and `None` are falsy). -/
def truthyQ : Option ℚ → Bool
  | none => false
  | some x => x != 0

/-- Python truthiness of an optional integer key (`0` and `None` are falsy). -/
def truthyNat : Option Nat → Bool
  | none => false
  | some n => n != 0

/-- The payload of a scan request, before serializer validation
(`CylinderScanSerializer` fields). -/
structure ScanRequest where
  code : String
  scan_type : ScanType
  location_lat : Option ℚ
  location_lng : Option ℚ
  location_address : String
  order_id : Option Nat
deriving DecidableEq, Repr

/-- `CylinderScanSerializer` validation: `validate_code` strips, requires at
least 8 characters and uppercases; latitude and longitude must lie in range
when present. Returns the validated data or `none` (HTTP 400). -/
def validateScanRequest (r : ScanRequest) : Option ScanRequest :=
  let stripped := pythonStrip r.code
  if stripped.length < 8 then none
  else if !(match r.location_lat with
            | none => true
            | some v => decide (-90 ≤ v) && decide (v ≤ 90)) then none
  else if !(match r.location_lng with
            | none => true
            | some v => decide (-180 ≤ v) && decide (v ≤ 180)) then none
  else some { r with code := pythonUpper stripped }

/-- Cylinder resolution in `scan_cylinder` (views.py lines 806-824):
exact match on `qr_code` for QR, on `rfid_tag` for RFID, and
`filter(Q(qr_code=code) | Q(rfid_tag=code)).first()` for MANUAL. -/
def resolveCylinder (cyls : List Cylinder) (st : ScanType) (code : String) :
    Option Cylinder :=
  match st with
  | .QR => cyls.find? (fun c => c.qr_code == code)
  | .RFID => cyls.find? (fun c => c.rfid_tag == code)
  | .MANUAL => cyls.find? (fun c => c.qr_code == code || c.rfid_tag == code)

/-- The rapid-repeat count: `CylinderScan` rows for this cylinder whose
timestamp is at least `now` minus 5 minutes (`scan_timestamp__gte`). -/
def recentScanCount (scans : List ScanEvent) (cid : Nat) (now : Int) : Nat :=
  (scans.filter (fun s => s.cylinder_id == cid && decide (now - 300 ≤ s.scan_timestamp))).length

/-- `CylinderScan.objects.filter(cylinder=c, scan_location_lat__isnull=False).first()`
under the model's default ordering `-scan_timestamp`: the row with the
greatest timestamp among those with a non-null latitude. -/
def latestScanWithLat (scans : List ScanEvent) (cid : Nat) : Option ScanEvent :=
  (scans.filter (fun s => s.cylinder_id == cid && s.scan_location_lat.isSome)).foldl
    (fun acc s =>
      match acc with
      | none => some s
      | some t => if t.scan_timestamp < s.scan_timestamp then some s else acc)
    none

/-- The suspicious-activity detection block of `scan_cylinder`
(views.py lines 851-882), evaluated against the ledger before the new scan is
written. Returns `(is_suspicious, suspicious_reason)`, or `none` for the
uncaught `TypeError` that the source raises when the fetched prior row has a
latitude but no longitude (`abs(float - None)`). -/
def detectSuspicious (scans : List ScanEvent) (c : Cylinder) (r : ScanRequest)
    (now : Int) : Option (Bool × String) :=
  let recent := recentScanCount scans c.id now
  let rapid : Bool × String :=
    if recent > 5 then (true, "Multiple rapid scans detected - possible cloning attempt")
    else (false, "")
  if truthyQ r.location_lat && truthyQ r.location_lng then
    match latestScanWithLat scans c.id with
    | none => some rapid
    | some last =>
      if now - last.scan_timestamp < 300 then
        match r.location_lat, r.location_lng, last.scan_location_lat, last.scan_location_lng with
        | some la, some lo, some lla, some llo =>
          if (decide ((1 : ℚ)/2 < |la - lla|)) || (decide ((1 : ℚ)/2 < |lo - llo|)) then
            some (true, rapid.2 ++ " Impossible location change detected.")
          else some rapid
        | _, _, _, _ => none
      else some rapid
  else some rapid

/-- Display name of a scan channel, as interpolated into the history notes. -/
def ScanType.str : ScanType → String
  | .QR => "QR"
  | .RFID => "RFID"
  | .MANUAL => "MANUAL"

/-- The cylinder-row update a scan performs before saving (views.py lines
905-911): last-scan metadata, counter increment and optional location. -/
def scanUpdate (c : Cylinder) (v : ScanRequest) (userId : Nat) (now : Int) : Cylinder :=
  { c with
    last_scanned_at := some now
    last_scanned_by := some userId
    total_scans := c.total_scans + 1
    last_known_location :=
      if v.location_address != "" then v.location_address
      else c.last_known_location }

/-- What a scan request can come back with. -/
inductive ScanOutcome
  | badRequest
  | notFound
  | internalError
  | ok (verified : Bool) (result : ScanResult) (message : String)
      (is_suspicious : Bool) (suspicious_reason : String)
deriving DecidableEq, Repr

/-- The `scan_cylinder` view (views.py lines 780-985): validate, resolve the
cylinder, verify authenticity, derive the scan result, run anomaly detection,
then atomically append a `CylinderScan` row, update the cylinder row and append
a `CylinderHistory` row. `now`/`today` are the wall clock, `userId` the
authenticated actor, `fresh` the random material `Cylinder.save()` could draw. -/
def scan_cylinder (hashF : String → String) (fresh : FreshCodes) (db : DB)
    (req : ScanRequest) (userId : Nat) (now : Int) (today : Date) :
    ScanOutcome × DB :=
  match validateScanRequest req with
  | none => (.badRequest, db)
  | some v =>
    match resolveCylinder db.cylinders v.scan_type v.code with
    | none => (.notFound, db)
    | some c =>
      let vr := c.verify_authenticity v.code v.scan_type.toCodeType today
      let is_valid := vr.1
      let message := vr.2
      let scan_result := deriveScanResult is_valid c today
      match detectSuspicious db.scans c v now with
      | none => (.internalError, db)
      | some suspicious =>
        let ev : ScanEvent :=
          { cylinder_id := c.id
            scan_type := v.scan_type
            scan_result := scan_result
            scanned_by := userId
            scanned_code := v.code
            scan_timestamp := now
            scan_location_lat := v.location_lat
            scan_location_lng := v.location_lng
            scan_location_address := v.location_address
            verification_message := message
            auth_token := if is_valid then generate_auth_token hashF c now else ""
            is_suspicious := suspicious.1
            suspicious_reason := suspicious.2
            related_order := v.order_id }
        let c2 := modelSave hashF fresh (scanUpdate c v userId now)
        let hev : HistoryEvent :=
          { cylinder_id := c.id
            event_type := .SCANNED
            performed_by := userId
            customer := none
            order := none
            previous_status := none
            new_status := none
            location := v.location_address
            notes := v.scan_type.str ++ " scan - " ++ message
            verification_scan_result := some scan_result
            verification_is_suspicious := some suspicious.1
            verification_lat := v.location_lat
            verification_lng := v.location_lng }
        let db1 := (DB.putCylinder { db with scans := ev :: db.scans } c2)
        (.ok is_valid scan_result message suspicious.1 suspicious.2,
          { db1 with history := hev :: db1.history })

/-- The transition table of `CylinderStatusUpdateSerializer.validate_status`
(serializers.py lines 524-532). -/
def valid_transitions : Status → List Status
  | .ACTIVE => [.FILLED, .MAINTENANCE, .RETIRED, .STOLEN]
  | .FILLED => [.IN_DELIVERY, .EMPTY, .MAINTENANCE]
  | .IN_DELIVERY => [.FILLED, .EMPTY]
  | .EMPTY => [.FILLED, .MAINTENANCE, .RETIRED]
  | .MAINTENANCE => [.ACTIVE, .RETIRED]
  | .RETIRED => []
  | .STOLEN => [.ACTIVE]

/-- The cylinder-row update a status change performs before saving. -/
def statusApply (c : Cylinder) (new_status : Status) (location : String) : Cylinder :=
  { c with
    status := new_status
    last_known_location :=
      if location != "" then location else c.last_known_location }

/-- What a status-update request can come back with. -/
inductive StatusUpdateOutcome
  | notFound
  | invalidTransition
  | ok
deriving DecidableEq, Repr

/-- The `update_cylinder_status` view (views.py lines 1292-1361): look the
cylinder up, validate the transition against the table, then set the status
(and optionally the location), save, and append a STATUS_CHANGE history row. -/
def update_cylinder_status (hashF : String → String) (fresh : FreshCodes)
    (db : DB) (cylinder_id : Nat) (new_status : Status) (notes location : String)
    (userId : Nat) : StatusUpdateOutcome × DB :=
  match db.cylinders.find? (fun c => c.id == cylinder_id) with
  | none => (.notFound, db)
  | some c =>
    if (valid_transitions c.status).contains new_status then
      let old_status := c.status
      let c2 := modelSave hashF fresh (statusApply c new_status location)
      let hev : HistoryEvent :=
        { cylinder_id := c.id
          event_type := .STATUS_CHANGE
          performed_by := userId
          customer := none
          order := none
          previous_status := some old_status
          new_status := some new_status
          location := location
          notes :=
            if notes != "" then notes
            else "Status changed from " ++ toString (repr old_status) ++ " to " ++
              toString (repr new_status)
          verification_scan_result := none
          verification_is_suspicious := none
          verification_lat := none
          verification_lng := none }
      let db1 := DB.putCylinder db c2
      (.ok, { db1 with history := hev :: db1.history })
    else (.invalidTransition, db)

/-- The cylinder-row update an order assignment performs before saving. -/
def orderAssign (c : Cylinder) (o : OrderRow) : Cylinder :=
  { c with current_order := some o.id
           current_customer := some o.customer
           status := .IN_DELIVERY }

/-- The cylinder-row update a customer assignment performs before saving. -/
def customerAssign (c : Cylinder) (u : UserRow) : Cylinder :=
  { c with current_customer := some u.id
           current_order := none }

/-- What an assignment request can come back with. -/
inductive AssignOutcome
  | badRequest
  | ok
deriving DecidableEq, Repr

/-- `CylinderAssignmentSerializer` validation (serializers.py lines 464-505):
the cylinder must exist and be neither RETIRED nor STOLEN; a truthy order id
must resolve to an order that is not DELIVERED/CANCELLED; a truthy customer id
must resolve to a CUSTOMER user. -/
def validateAssignment (db : DB) (cylinder_id : Nat) (order_id customer_id : Option Nat) :
    Bool :=
  (match db.cylinders.find? (fun c => c.id == cylinder_id) with
   | none => false
   | some c => c.status != .RETIRED && c.status != .STOLEN) &&
  (if truthyNat order_id then
    match db.orders.find? (fun o => some o.id == order_id) with
    | none => false
    | some o => o.order_status != "DELIVERED" && o.order_status != "CANCELLED"
   else true) &&
  (if truthyNat customer_id then
    (db.users.find? (fun u => some u.id == customer_id && u.role == "CUSTOMER")).isSome
   else true)

/-- The `assign_cylinder_to_order` view (views.py lines 1081-1173): after
serializer validation, assign the cylinder to the order (forcing status
IN_DELIVERY and copying the order's customer) or to the customer, save, and
append the corresponding history row. -/
def assign_cylinder (hashF : String → String) (fresh : FreshCodes) (db : DB)
    (cylinder_id : Nat) (order_id customer_id : Option Nat) (notes : String)
    (userId : Nat) : AssignOutcome × DB :=
  if !(validateAssignment db cylinder_id order_id customer_id) then (.badRequest, db)
  else
    match db.cylinders.find? (fun c => c.id == cylinder_id) with
    | none => (.badRequest, db)
    | some c =>
      if truthyNat order_id then
        match db.orders.find? (fun o => some o.id == order_id) with
        | none => (.badRequest, db)
        | some o =>
          let c2 := modelSave hashF fresh (orderAssign c o)
          let hev : HistoryEvent :=
            { cylinder_id := c.id
              event_type := .DELIVERED
              performed_by := userId
              customer := some o.customer
              order := some o.id
              previous_status := some (orderAssign c o).status
              new_status := some .IN_DELIVERY
              location := ""
              notes := if notes != "" then notes else "Assigned to order"
              verification_scan_result := none
              verification_is_suspicious := none
              verification_lat := none
              verification_lng := none }
          let db1 := DB.putCylinder db c2
          (.ok, { db1 with history := hev :: db1.history })
      else if truthyNat customer_id then
        match db.users.find? (fun u => some u.id == customer_id) with
        | none => (.badRequest, db)
        | some u =>
          let c2 := modelSave hashF fresh (customerAssign c u)
          let hev : HistoryEvent :=
            { cylinder_id := c.id
              event_type := .CUSTOMER_ASSIGNED
              performed_by := userId
              customer := some u.id
              order := none
              previous_status := none
              new_status := none
              location := ""
              notes := if notes != "" then notes else "Assigned to customer"
              verification_scan_result := none
              verification_is_suspicious := none
              verification_lat := none
              verification_lng := none }
          let db1 := DB.putCylinder db c2
          (.ok, { db1 with history := hev :: db1.history })
      else
        let c2 := modelSave hashF fresh c
        (.ok, DB.putCylinder db c2)

/-- The payload of a registration request (`CylinderCreateSerializer` fields). -/
structure RegRequest where
  serial_number : String
  cylinder_type : String
  capacity_kg : ℚ
  manufacturer : String
  manufacturing_date : Date
  expiry_date : Date
deriving DecidableEq, Repr

/-- `validate_serial_number` (serializers.py lines 335-344): the stripped value
has at least 5 characters and the raw value with hyphens removed satisfies
`str.isalnum()`. -/
def serialFormatOk (v : String) : Bool :=
  decide (5 ≤ (pythonStrip v).length) && pyIsAlnum (removeHyphens v)

/-- The `UniqueValidator` the `ModelSerializer` attaches to `serial_number`:
the raw input value must not already be a stored serial number. -/
def serialUnique (cyls : List Cylinder) (v : String) : Bool :=
  cyls.all (fun c => c.serial_number != v)

/-- `validate_capacity_kg`: strictly positive and at most 100 kg. -/
def capacityOk (v : ℚ) : Bool :=
  decide (0 < v) && decide (v ≤ 100)

/-- `validate_manufacturing_date`: not in the future and not before
`today.replace(year = year - 20)`. -/
def manufacturingDateOk (v today : Date) : Bool :=
  v.leb today && !(v.ltb (today.addYears (-20)))

/-- `validate_expiry_date`: strictly after today. -/
def expiryDateOk (v today : Date) : Bool :=
  today.ltb v

/-- The cross-field `validate` method: expiry strictly after manufacturing and
at most `manufacturing_date.replace(year = year + 20)`. -/
def dateRangeOk (mfg exp : Date) : Bool :=
  mfg.ltb exp && exp.leb (mfg.addYears 20)

/-- The whole of `CylinderCreateSerializer.is_valid()`. -/
def registrationValid (cyls : List Cylinder) (r : RegRequest) (today : Date) : Bool :=
  serialFormatOk r.serial_number &&
  serialUnique cyls r.serial_number &&
  capacityOk r.capacity_kg &&
  manufacturingDateOk r.manufacturing_date today &&
  expiryDateOk r.expiry_date today &&
  dateRangeOk r.manufacturing_date r.expiry_date

/-- What a registration request can come back with. -/
inductive RegisterOutcome
  | validationError
  | created (c : Cylinder)
deriving DecidableEq, Repr

/-- The `register_cylinder` view (views.py lines 726-775): validate, create the
cylinder (the model `save()` generating the four security fields, the model
field defaults supplying status ACTIVE, authentic, untampered, zero counters)
and append a REGISTERED history row. `newId` is the fresh primary key. -/
def register_cylinder (hashF : String → String) (fresh : FreshCodes) (newId : Nat)
    (db : DB) (r : RegRequest) (today : Date) (userId : Nat) :
    RegisterOutcome × DB :=
  if registrationValid db.cylinders r today then
    let base : Cylinder :=
      { id := newId
        serial_number := pythonUpper (pythonStrip r.serial_number)
        qr_code := ""
        rfid_tag := ""
        auth_hash := ""
        secret_key := ""
        cylinder_type := r.cylinder_type
        capacity_kg := r.capacity_kg
        manufacturer := r.manufacturer
        manufacturing_date := r.manufacturing_date
        expiry_date := r.expiry_date
        status := .ACTIVE
        current_customer := none
        current_order := none
        last_known_location := ""
        last_scanned_at := none
        last_scanned_by := none
        total_fills := 0
        total_scans := 0
        is_authentic := true
        is_tampered := false }
    let c := modelSave hashF fresh base
    let hev : HistoryEvent :=
      { cylinder_id := newId
        event_type := .REGISTERED
        performed_by := userId
        customer := none
        order := none
        previous_status := none
        new_status := none
        location := ""
        notes := "Cylinder registered"
        verification_scan_result := none
        verification_is_suspicious := none
        verification_lat := none
        verification_lng := none }
    (.created c, { db with cylinders := c :: db.cylinders, history := hev :: db.history })
  else (.validationError, db)

/-! Spec-side formulations used by refinement claims. -/

/-- Spec formulation (section 4.3): the ordered checklist of the verifier, one
(fails, message) pair per numbered check. -/
def specChecklist (c : Cylinder) (code : String) (ct : CodeType) (today : Date) :
    List (Bool × String) :=
  [ (ct == .qr && c.qr_code != code, "Invalid QR code"),
    (ct == .rfid && c.rfid_tag != code, "Invalid RFID tag"),
    (c.is_tampered, "Cylinder shows signs of tampering"),
    (!c.is_authentic, "Cylinder marked as non-authentic"),
    (c.status == .RETIRED, "Cylinder has been retired"),
    (c.status == .STOLEN, "Cylinder reported as stolen/lost"),
    (c.expiry_date.ltb today, "Cylinder has expired - requires inspection") ]

/-- Spec formulation: the first failing check wins; if none fails, the
verification succeeds. -/
def firstFailing : List (Bool × String) → Bool × String
  | [] => (true, "Cylinder verified successfully")
  | (b, m) :: rest => if b then (false, m) else firstFailing rest

/-- Spec formulation (section 4.2): the state-machine table, one row per edge. -/
def specTransitionTable : List (Status × Status) :=
  [ (.ACTIVE, .FILLED), (.ACTIVE, .MAINTENANCE), (.ACTIVE, .RETIRED), (.ACTIVE, .STOLEN),
    (.FILLED, .IN_DELIVERY), (.FILLED, .EMPTY), (.FILLED, .MAINTENANCE),
    (.IN_DELIVERY, .FILLED), (.IN_DELIVERY, .EMPTY),
    (.EMPTY, .FILLED), (.EMPTY, .MAINTENANCE), (.EMPTY, .RETIRED),
    (.MAINTENANCE, .ACTIVE), (.MAINTENANCE, .RETIRED),
    (.STOLEN, .ACTIVE) ]

/-- A concrete healthy cylinder used by the closed witness statements. -/
def sampleCyl : Cylinder :=
  { id := 1, serial_number := "CYL-2024-001", qr_code := "QR-AAAABBBBCCCCDDDD",
    rfid_tag := "RFID-AAAABBBBCCCCDDDD", auth_hash := "h", secret_key := "s",
    cylinder_type := "13KG", capacity_kg := 13, manufacturer := "M",
    manufacturing_date := ⟨2024, 1, 1⟩, expiry_date := ⟨2039, 1, 1⟩,
    status := .ACTIVE, current_customer := none, current_order := none,
    last_known_location := "", last_scanned_at := none, last_scanned_by := none,
    total_fills := 0, total_scans := 0, is_authentic := true, is_tampered := false }

/-- A concrete digest function standing in for SHA-256 in closed statements. -/
def sampleHash (s : String) : String := "sha256-" ++ s

/-- Concrete fresh random material for closed statements. -/
def sampleFresh : FreshCodes :=
  { qr_hex := "0123456789ABCDEF", rfid_hex := "FEDCBA9876543210", secret := "tok" }

end Greenwells

namespace Greenwells

/-- C1: the verifier evaluates its checks in the fixed priority order
code-mismatch, is_tampered, not is_authentic, RETIRED, STOLEN, expired,
success, the first failing check determining the returned (ok, reason) pair;
and the scan-result classification computed by the scan operation from the
verifier outcome sends success to SUCCESS and otherwise lets tamper take
precedence over stolen, stolen over expiry, and expiry over generic failure. -/
theorem C1_verify_priority_and_classification
    (c : Cylinder) (code : String) (ct : CodeType) (today : Date) :
    c.verify_authenticity code ct today = firstFailing (specChecklist c code ct today)
    ∧ ((c.verify_authenticity code ct today).1 = true →
        deriveScanResult (c.verify_authenticity code ct today).1 c today = .SUCCESS)
    ∧ ((c.verify_authenticity code ct today).1 = false → c.is_tampered = true →
        deriveScanResult (c.verify_authenticity code ct today).1 c today = .TAMPERED)
    ∧ ((c.verify_authenticity code ct today).1 = false → c.is_tampered = false →
        c.status = .STOLEN →
        deriveScanResult (c.verify_authenticity code ct today).1 c today = .STOLEN)
    ∧ ((c.verify_authenticity code ct today).1 = false → c.is_tampered = false →
        c.status ≠ .STOLEN → c.expiry_date.ltb today = true →
        deriveScanResult (c.verify_authenticity code ct today).1 c today = .EXPIRED)
    ∧ ((c.verify_authenticity code ct today).1 = false → c.is_tampered = false →
        c.status ≠ .STOLEN → c.expiry_date.ltb today = false →
        deriveScanResult (c.verify_authenticity code ct today).1 c today = .FAILED) := by
  refine ⟨?_, ?_, ?_, ?_, ?_, ?_⟩
  · simp only [Cylinder.verify_authenticity, specChecklist, firstFailing]
  · intro h
    simp [deriveScanResult, h]
  · intro h ht
    simp [deriveScanResult, h, ht]
  · intro h ht hs
    simp [deriveScanResult, h, ht, hs]
  · intro h ht hs he
    simp only [deriveScanResult, h, ht, Bool.false_eq_true, if_false, he, if_true]
    simp [hs]
  · intro h ht hs he
    simp only [deriveScanResult, h, ht, Bool.false_eq_true, if_false, he]
    simp [hs]

/-- C1 witness: a tampered cylinder with a matching QR code fails with the
tamper message and classifies as TAMPERED. -/
theorem C1_witness :
    (Cylinder.verify_authenticity { sampleCyl with is_tampered := true }
        "QR-AAAABBBBCCCCDDDD" .qr ⟨2026, 10, 12⟩).2
      = "Cylinder shows signs of tampering"
    ∧ deriveScanResult false { sampleCyl with is_tampered := true }
        ⟨2026, 10, 12⟩ = .TAMPERED := by
  have h := C1_verify_priority_and_classification { sampleCyl with is_tampered := true }
    "QR-AAAABBBBCCCCDDDD" .qr ⟨2026, 10, 12⟩
  constructor
  · rw [h.1]
    decide
  · have hv : (Cylinder.verify_authenticity { sampleCyl with is_tampered := true }
        "QR-AAAABBBBCCCCDDDD" .qr ⟨2026, 10, 12⟩).1 = false := by decide
    have := h.2.2.1 hv (by decide)
    rw [hv] at this
    exact this

/-- C3: an attempted status transition succeeds exactly when the (current, new)
edge is in the section 4.2 table; every other attempt is rejected as an invalid
transition and leaves the store, in particular the cylinder status, unchanged. -/
theorem C3_status_transition
    (hashF : String → String) (fresh : FreshCodes) (db : DB) (cid : Nat)
    (new_status : Status) (notes location : String) (userId : Nat) (c : Cylinder)
    (hc : db.cylinders.find? (fun x => x.id == cid) = some c) :
    ((update_cylinder_status hashF fresh db cid new_status notes location userId).1 = .ok
      ↔ specTransitionTable.contains (c.status, new_status) = true)
    ∧ ((update_cylinder_status hashF fresh db cid new_status notes location userId).1 ≠ .ok →
        (update_cylinder_status hashF fresh db cid new_status notes location userId).1
            = .invalidTransition
        ∧ (update_cylinder_status hashF fresh db cid new_status notes location userId).2 = db) := by
  have htab : (valid_transitions c.status).contains new_status
      = specTransitionTable.contains (c.status, new_status) := by
    cases hcs : c.status <;> cases new_status <;> decide
  unfold update_cylinder_status
  rw [hc]
  dsimp only
  by_cases hct : (valid_transitions c.status).contains new_status = true
  · rw [if_pos hct]
    refine ⟨iff_of_true rfl (htab ▸ hct), fun hne => absurd rfl hne⟩
  · rw [if_neg hct]
    refine ⟨iff_of_false (by simp) ?_, fun _ => ⟨rfl, rfl⟩⟩
    rw [← htab]
    simpa using hct

/-- C3 witness: the RETIRED to ACTIVE transition on a concrete store is
rejected as an invalid transition and the store is unchanged. -/
theorem C3_witness :
    (update_cylinder_status sampleHash sampleFresh
        { cylinders := [{ sampleCyl with status := .RETIRED }], scans := [],
          history := [], orders := [], users := [] }
        1 .ACTIVE "" "" 9).1 = .invalidTransition
    ∧ (update_cylinder_status sampleHash sampleFresh
        { cylinders := [{ sampleCyl with status := .RETIRED }], scans := [],
          history := [], orders := [], users := [] }
        1 .ACTIVE "" "" 9).2
      = { cylinders := [{ sampleCyl with status := .RETIRED }], scans := [],
          history := [], orders := [], users := [] } := by
  have h := C3_status_transition sampleHash sampleFresh
    { cylinders := [{ sampleCyl with status := .RETIRED }], scans := [],
      history := [], orders := [], users := [] }
    1 .ACTIVE "" "" 9 { sampleCyl with status := .RETIRED } rfl
  have hno : specTransitionTable.contains
      (({ sampleCyl with status := Status.RETIRED } : Cylinder).status, Status.ACTIVE)
      = false := by decide
  have hne : (update_cylinder_status sampleHash sampleFresh
      { cylinders := [{ sampleCyl with status := .RETIRED }], scans := [],
        history := [], orders := [], users := [] }
      1 .ACTIVE "" "" 9).1 ≠ .ok := by
    intro hok
    have := h.1.mp hok
    rw [hno] at this
    exact Bool.false_ne_true this
  exact h.2 hne

/-- C4: a validated scan whose code resolves to no cylinder returns the
not-found failure and leaves the store untouched: no scan row, no history row,
no cylinder change. -/
theorem C4_unresolved_scan_writes_nothing
    (hashF : String → String) (fresh : FreshCodes) (db : DB) (req : ScanRequest)
    (userId : Nat) (now : Int) (today : Date) (v : ScanRequest)
    (hv : validateScanRequest req = some v)
    (hr : resolveCylinder db.cylinders v.scan_type v.code = none) :
    scan_cylinder hashF fresh db req userId now today = (.notFound, db) := by
  unfold scan_cylinder
  rw [hv]
  dsimp only
  rw [hr]

/-- C4 witness: scanning a code that matches no stored cylinder on a concrete
store returns not-found and the store is unchanged. -/
theorem C4_witness :
    scan_cylinder sampleHash sampleFresh
      { cylinders := [sampleCyl], scans := [], history := [], orders := [], users := [] }
      { code := "QR-NOSUCHCODE", scan_type := .QR, location_lat := none,
        location_lng := none, location_address := "", order_id := none }
      9 1000 ⟨2026, 10, 12⟩
    = (.notFound,
        { cylinders := [sampleCyl], scans := [], history := [], orders := [], users := [] }) := by
  exact C4_unresolved_scan_writes_nothing sampleHash sampleFresh
    { cylinders := [sampleCyl], scans := [], history := [], orders := [], users := [] }
    { code := "QR-NOSUCHCODE", scan_type := .QR, location_lat := none,
      location_lng := none, location_address := "", order_id := none }
    9 1000 ⟨2026, 10, 12⟩
    { code := "QR-NOSUCHCODE", scan_type := .QR, location_lat := none,
      location_lng := none, location_address := "", order_id := none }
    (by decide) (by decide)

/-- The tail of the verifier after the two code-mismatch checks (checks 2 to 7
of section 4.3). -/
def postCodeChecks (c : Cylinder) (today : Date) : Bool × String :=
  if c.is_tampered then (false, "Cylinder shows signs of tampering")
  else if !c.is_authentic then (false, "Cylinder marked as non-authentic")
  else if c.status == .RETIRED then (false, "Cylinder has been retired")
  else if c.status == .STOLEN then (false, "Cylinder reported as stolen/lost")
  else if c.expiry_date.ltb today then (false, "Cylinder has expired - requires inspection")
  else (true, "Cylinder verified successfully")

/-- C10: when the scan operation has resolved a cylinder from the presented
code, the verifier run at that call site can never take a code-mismatch branch:
its result is exactly the post-mismatch cascade, and the returned reason is
neither of the two mismatch messages. -/
theorem C10_mismatch_unreachable
    (cyls : List Cylinder) (st : ScanType) (code : String) (c : Cylinder) (today : Date)
    (hr : resolveCylinder cyls st code = some c) :
    c.verify_authenticity code st.toCodeType today = postCodeChecks c today
    ∧ (c.verify_authenticity code st.toCodeType today).2 ≠ "Invalid QR code"
    ∧ (c.verify_authenticity code st.toCodeType today).2 ≠ "Invalid RFID tag" := by
  have hmain : c.verify_authenticity code st.toCodeType today = postCodeChecks c today := by
    cases st with
    | QR =>
      simp only [resolveCylinder] at hr
      have hp := List.find?_some hr
      simp only at hp
      have hp2 : c.qr_code = code := eq_of_beq hp
      unfold Cylinder.verify_authenticity postCodeChecks ScanType.toCodeType
      simp [hp2]
    | RFID =>
      simp only [resolveCylinder] at hr
      have hp := List.find?_some hr
      simp only at hp
      have hp2 : c.rfid_tag = code := eq_of_beq hp
      unfold Cylinder.verify_authenticity postCodeChecks ScanType.toCodeType
      simp [hp2]
    | MANUAL =>
      unfold Cylinder.verify_authenticity postCodeChecks ScanType.toCodeType
      simp
  refine ⟨hmain, ?_, ?_⟩
  · rw [hmain]
    unfold postCodeChecks
    split_ifs <;> decide
  · rw [hmain]
    unfold postCodeChecks
    split_ifs <;> decide

/-- C10 witness: resolving the sample cylinder by its own QR code makes the
verifier skip the mismatch checks. -/
theorem C10_witness :
    sampleCyl.verify_authenticity "QR-AAAABBBBCCCCDDDD" ScanType.QR.toCodeType ⟨2026, 10, 12⟩
        = postCodeChecks sampleCyl ⟨2026, 10, 12⟩
    ∧ (sampleCyl.verify_authenticity "QR-AAAABBBBCCCCDDDD" ScanType.QR.toCodeType
        ⟨2026, 10, 12⟩).2 ≠ "Invalid QR code"
    ∧ (sampleCyl.verify_authenticity "QR-AAAABBBBCCCCDDDD" ScanType.QR.toCodeType
        ⟨2026, 10, 12⟩).2 ≠ "Invalid RFID tag" := by
  exact C10_mismatch_unreachable [sampleCyl] .QR "QR-AAAABBBBCCCCDDDD" sampleCyl
    ⟨2026, 10, 12⟩ (by decide)

/-- The four creation-time security fields of a cylinder row. -/
def securityQuad (c : Cylinder) : String × String × String × String :=
  (c.qr_code, c.rfid_tag, c.secret_key, c.auth_hash)

/-- All four security fields are populated (they are, from creation on). -/
def secPopulated (c : Cylinder) : Prop :=
  c.qr_code ≠ "" ∧ c.rfid_tag ≠ "" ∧ c.secret_key ≠ "" ∧ c.auth_hash ≠ ""

instance (c : Cylinder) : Decidable (secPopulated c) := by
  unfold secPopulated
  infer_instance

/-- On a row whose security fields are already populated, the model save hook
generates nothing and returns the row unchanged. -/
theorem modelSave_of_populated (hashF : String → String) (fresh : FreshCodes)
    (c : Cylinder) (h : secPopulated c) : modelSave hashF fresh c = c := by
  obtain ⟨h1, h2, h3, h4⟩ := h
  simp [modelSave, h1, h2, h3, h4]

/-- Rows with equal security quadruples are populated together. -/
theorem secPopulated_of_quad_eq {c c2 : Cylinder}
    (h : securityQuad c2 = securityQuad c) (hp : secPopulated c) :
    secPopulated c2 := by
  have e1 : c2.qr_code = c.qr_code := congrArg (fun t => t.1) h
  have e2 : c2.rfid_tag = c.rfid_tag := congrArg (fun t => t.2.1) h
  have e3 : c2.secret_key = c.secret_key := congrArg (fun t => t.2.2.1) h
  have e4 : c2.auth_hash = c.auth_hash := congrArg (fun t => t.2.2.2) h
  obtain ⟨h1, h2, h3, h4⟩ := hp
  exact ⟨e1 ▸ h1, e2 ▸ h2, e3 ▸ h3, e4 ▸ h4⟩

/-- Replacing one row by another with the same key and the same projected
value leaves the projected column of the table unchanged. -/
theorem map_proj_put {α : Type} (g : Cylinder → α) (l : List Cylinder)
    (c c2 : Cylinder) (hmem : c ∈ l)
    (hu : ∀ x ∈ l, ∀ y ∈ l, x.id = y.id → x = y)
    (hid : c2.id = c.id) (hg : g c2 = g c) :
    (l.map (fun x => if x.id == c2.id then c2 else x)).map g = l.map g := by
  rw [List.map_map]
  apply List.map_congr_left
  intro x hx
  by_cases hxid : x.id = c2.id
  · have hbe : (x.id == c2.id) = true := by simp [hxid]
    have hx_eq_c : x = c := hu x hx c hmem (hxid.trans hid)
    simp only [Function.comp_apply, hbe, if_true]
    rw [hg, hx_eq_c]
  · have hbe : (x.id == c2.id) = false := by simp [hxid]
    simp only [Function.comp_apply, hbe, Bool.false_eq_true, if_false]

/-- Projections of the model save hook: the row key is never changed. -/
theorem modelSave_id (hashF : String → String) (fresh : FreshCodes) (c : Cylinder) :
    (modelSave hashF fresh c).id = c.id := by
  unfold modelSave
  dsimp only
  split_ifs <;> rfl

/-- Projections of the model save hook: the tamper flag is never changed. -/
theorem modelSave_is_tampered (hashF : String → String) (fresh : FreshCodes)
    (c : Cylinder) : (modelSave hashF fresh c).is_tampered = c.is_tampered := by
  unfold modelSave
  dsimp only
  split_ifs <;> rfl

/-- Cylinder resolution only ever returns a stored row. -/
theorem resolve_mem (l : List Cylinder) (st : ScanType) (code : String)
    (c : Cylinder) (h : resolveCylinder l st code = some c) : c ∈ l := by
  cases st <;> exact List.mem_of_find?_eq_some h

/-- C5: with all cylinder rows keyed uniquely and their security fields
populated (as creation leaves them), a scan, a status update and an assignment
all leave the (qr_code, rfid_tag, secret_key, auth_hash) column of the cylinder
table unchanged. -/
theorem C5_security_fields_immutable
    (hashF : String → String) (fresh : FreshCodes) (db : DB)
    (hu : ∀ x ∈ db.cylinders, ∀ y ∈ db.cylinders, x.id = y.id → x = y)
    (hs : ∀ x ∈ db.cylinders, secPopulated x) :
    (∀ req userId now today,
      (scan_cylinder hashF fresh db req userId now today).2.cylinders.map securityQuad
        = db.cylinders.map securityQuad)
    ∧ (∀ cid new_status notes location userId,
      (update_cylinder_status hashF fresh db cid new_status notes location
          userId).2.cylinders.map securityQuad
        = db.cylinders.map securityQuad)
    ∧ (∀ cid oid custid notes userId,
      (assign_cylinder hashF fresh db cid oid custid notes userId).2.cylinders.map securityQuad
        = db.cylinders.map securityQuad) := by
  refine ⟨?_, ?_, ?_⟩
  · intro req userId now today
    unfold scan_cylinder
    rcases hv : validateScanRequest req with _ | v
    · rfl
    dsimp only
    rcases hrc : resolveCylinder db.cylinders v.scan_type v.code with _ | c
    · rfl
    dsimp only
    rcases hd : detectSuspicious db.scans c v now with _ | susp
    · rfl
    have hcmem := resolve_mem db.cylinders v.scan_type v.code c hrc
    have hpop := hs c hcmem
    dsimp only [DB.putCylinder]
    rw [modelSave_of_populated hashF fresh (scanUpdate c v userId now)
      (secPopulated_of_quad_eq rfl hpop)]
    exact map_proj_put securityQuad db.cylinders c _ hcmem hu rfl rfl
  · intro cid new_status notes location userId
    rcases hf : db.cylinders.find? (fun x => x.id == cid) with _ | c
    · unfold update_cylinder_status
      rw [hf]
    have hcmem := List.mem_of_find?_eq_some hf
    have hpop := hs c hcmem
    unfold update_cylinder_status
    rw [hf]
    dsimp only
    by_cases hct : ((valid_transitions c.status).contains new_status) = true
    · rw [if_pos hct]
      dsimp only [DB.putCylinder]
      rw [modelSave_of_populated hashF fresh (statusApply c new_status location)
        (secPopulated_of_quad_eq rfl hpop)]
      exact map_proj_put securityQuad db.cylinders c _ hcmem hu rfl rfl
    · rw [if_neg hct]
  · intro cid oid custid notes userId
    by_cases hval : validateAssignment db cid oid custid = true
    · rcases hf : db.cylinders.find? (fun x => x.id == cid) with _ | c
      · unfold assign_cylinder
        rw [if_neg (by simp [hval]), hf]
      have hcmem := List.mem_of_find?_eq_some hf
      have hpop := hs c hcmem
      unfold assign_cylinder
      rw [if_neg (by simp [hval]), hf]
      dsimp only
      by_cases ho : truthyNat oid = true
      · rcases hor : db.orders.find? (fun o => some o.id == oid) with _ | o
        · rw [if_pos ho, hor]
        rw [if_pos ho, hor]
        dsimp only [DB.putCylinder]
        rw [modelSave_of_populated hashF fresh (orderAssign c o)
          (secPopulated_of_quad_eq rfl hpop)]
        exact map_proj_put securityQuad db.cylinders c _ hcmem hu rfl rfl
      · rw [if_neg ho]
        by_cases hcu : truthyNat custid = true
        · rcases hur : db.users.find? (fun u => some u.id == custid) with _ | u
          · rw [if_pos hcu, hur]
          rw [if_pos hcu, hur]
          dsimp only [DB.putCylinder]
          rw [modelSave_of_populated hashF fresh (customerAssign c u)
            (secPopulated_of_quad_eq rfl hpop)]
          exact map_proj_put securityQuad db.cylinders c _ hcmem hu rfl rfl
        · rw [if_neg hcu]
          dsimp only [DB.putCylinder]
          rw [modelSave_of_populated hashF fresh c hpop]
          exact map_proj_put securityQuad db.cylinders c _ hcmem hu rfl rfl
    · unfold assign_cylinder
      rw [if_pos (by simp [hval])]

/-- C5 witness: a successful scan of the sample store leaves the security
columns exactly as they were. -/
theorem C5_witness :
    (scan_cylinder sampleHash sampleFresh
        { cylinders := [sampleCyl], scans := [], history := [], orders := [], users := [] }
        { code := "QR-AAAABBBBCCCCDDDD", scan_type := .QR, location_lat := none,
          location_lng := none, location_address := "", order_id := none }
        9 1000 ⟨2026, 10, 12⟩).2.cylinders.map securityQuad
      = [("QR-AAAABBBBCCCCDDDD", "RFID-AAAABBBBCCCCDDDD", "s", "h")] := by
  have h := (C5_security_fields_immutable sampleHash sampleFresh
    { cylinders := [sampleCyl], scans := [], history := [], orders := [], users := [] }
    (by decide) (by decide)).1
    { code := "QR-AAAABBBBCCCCDDDD", scan_type := .QR, location_lat := none,
      location_lng := none, location_address := "", order_id := none }
    9 1000 ⟨2026, 10, 12⟩
  rw [h]
  rfl

/-- C6: with cylinder rows keyed uniquely, no core operation ever changes the
tamper column of an existing row: scans, status updates and assignments
preserve it row by row, and registration only prepends a new untampered row.
In particular a row with is_tampered true keeps it true. -/
theorem C6_tamper_flag_sticky
    (hashF : String → String) (fresh : FreshCodes) (db : DB)
    (hu : ∀ x ∈ db.cylinders, ∀ y ∈ db.cylinders, x.id = y.id → x = y) :
    (∀ req userId now today,
      (scan_cylinder hashF fresh db req userId now today).2.cylinders.map Cylinder.is_tampered
        = db.cylinders.map Cylinder.is_tampered)
    ∧ (∀ cid new_status notes location userId,
      (update_cylinder_status hashF fresh db cid new_status notes location
          userId).2.cylinders.map Cylinder.is_tampered
        = db.cylinders.map Cylinder.is_tampered)
    ∧ (∀ cid oid custid notes userId,
      (assign_cylinder hashF fresh db cid oid custid notes
          userId).2.cylinders.map Cylinder.is_tampered
        = db.cylinders.map Cylinder.is_tampered)
    ∧ (∀ newId r today userId,
      (register_cylinder hashF fresh newId db r today userId).2.cylinders.map Cylinder.is_tampered
          = db.cylinders.map Cylinder.is_tampered
      ∨ (register_cylinder hashF fresh newId db r today userId).2.cylinders.map Cylinder.is_tampered
          = false :: db.cylinders.map Cylinder.is_tampered) := by
  refine ⟨?_, ?_, ?_, ?_⟩
  · intro req userId now today
    unfold scan_cylinder
    rcases hv : validateScanRequest req with _ | v
    · rfl
    dsimp only
    rcases hrc : resolveCylinder db.cylinders v.scan_type v.code with _ | c
    · rfl
    dsimp only
    rcases hd : detectSuspicious db.scans c v now with _ | susp
    · rfl
    have hcmem := resolve_mem db.cylinders v.scan_type v.code c hrc
    dsimp only [DB.putCylinder]
    exact map_proj_put Cylinder.is_tampered db.cylinders c _ hcmem hu
      ((modelSave_id hashF fresh _).trans rfl)
      ((modelSave_is_tampered hashF fresh _).trans rfl)
  · intro cid new_status notes location userId
    rcases hf : db.cylinders.find? (fun x => x.id == cid) with _ | c
    · unfold update_cylinder_status
      rw [hf]
    have hcmem := List.mem_of_find?_eq_some hf
    unfold update_cylinder_status
    rw [hf]
    dsimp only
    by_cases hct : ((valid_transitions c.status).contains new_status) = true
    · rw [if_pos hct]
      dsimp only [DB.putCylinder]
      exact map_proj_put Cylinder.is_tampered db.cylinders c _ hcmem hu
        ((modelSave_id hashF fresh _).trans rfl)
        ((modelSave_is_tampered hashF fresh _).trans rfl)
    · rw [if_neg hct]
  · intro cid oid custid notes userId
    by_cases hval : validateAssignment db cid oid custid = true
    · rcases hf : db.cylinders.find? (fun x => x.id == cid) with _ | c
      · unfold assign_cylinder
        rw [if_neg (by simp [hval]), hf]
      have hcmem := List.mem_of_find?_eq_some hf
      unfold assign_cylinder
      rw [if_neg (by simp [hval]), hf]
      dsimp only
      by_cases ho : truthyNat oid = true
      · rcases hor : db.orders.find? (fun o => some o.id == oid) with _ | o
        · rw [if_pos ho, hor]
        rw [if_pos ho, hor]
        dsimp only [DB.putCylinder]
        exact map_proj_put Cylinder.is_tampered db.cylinders c _ hcmem hu
          ((modelSave_id hashF fresh _).trans rfl)
          ((modelSave_is_tampered hashF fresh _).trans rfl)
      · rw [if_neg ho]
        by_cases hcu : truthyNat custid = true
        · rcases hur : db.users.find? (fun u => some u.id == custid) with _ | u
          · rw [if_pos hcu, hur]
          rw [if_pos hcu, hur]
          dsimp only [DB.putCylinder]
          exact map_proj_put Cylinder.is_tampered db.cylinders c _ hcmem hu
            ((modelSave_id hashF fresh _).trans rfl)
            ((modelSave_is_tampered hashF fresh _).trans rfl)
        · rw [if_neg hcu]
          dsimp only [DB.putCylinder]
          exact map_proj_put Cylinder.is_tampered db.cylinders c _ hcmem hu
            ((modelSave_id hashF fresh _).trans rfl)
            ((modelSave_is_tampered hashF fresh _).trans rfl)
    · unfold assign_cylinder
      rw [if_pos (by simp [hval])]
  · intro newId r today userId
    unfold register_cylinder
    by_cases hreg : registrationValid db.cylinders r today = true
    · right
      rw [if_pos hreg]
      dsimp only
      rw [List.map_cons]
      congr 1
    · left
      rw [if_neg hreg]

/-- C6 witness: scanning a tampered cylinder leaves its tamper flag true. -/
theorem C6_witness :
    (scan_cylinder sampleHash sampleFresh
        { cylinders := [{ sampleCyl with is_tampered := true }], scans := [],
          history := [], orders := [], users := [] }
        { code := "QR-AAAABBBBCCCCDDDD", scan_type := .QR, location_lat := none,
          location_lng := none, location_address := "", order_id := none }
        9 1000 ⟨2026, 10, 12⟩).2.cylinders.map Cylinder.is_tampered
      = [true] := by
  have h := (C6_tamper_flag_sticky sampleHash sampleFresh
    { cylinders := [{ sampleCyl with is_tampered := true }], scans := [],
      history := [], orders := [], users := [] }
    (by decide)).1
    { code := "QR-AAAABBBBCCCCDDDD", scan_type := .QR, location_lat := none,
      location_lng := none, location_address := "", order_id := none }
    9 1000 ⟨2026, 10, 12⟩
  rw [h]
  rfl

/-- A concrete prior scan-ledger row used in closed statements about the
anomaly rules. -/
def priorScan (ts : Int) : ScanEvent :=
  { cylinder_id := 1, scan_type := .QR, scan_result := .SUCCESS, scanned_by := 9,
    scanned_code := "QR-AAAABBBBCCCCDDDD", scan_timestamp := ts,
    scan_location_lat := none, scan_location_lng := none, scan_location_address := "",
    verification_message := "", auth_token := "", is_suspicious := false,
    suspicious_reason := "", related_order := none }

/-- C2 counterexample: with exactly 5 prior in-window scan rows, the 6th
in-window scan of the same cylinder is NOT flagged suspicious, because the
rapid-repeat count is taken over the rows already in the ledger (5 here) and
the rule requires strictly more than 5. -/
theorem C2_counterexample :
    recentScanCount
        [priorScan 1000, priorScan 999, priorScan 998, priorScan 997, priorScan 996]
        1 1000 = 5
    ∧ ((scan_cylinder sampleHash sampleFresh
        { cylinders := [sampleCyl],
          scans := [priorScan 1000, priorScan 999, priorScan 998, priorScan 997,
            priorScan 996],
          history := [], orders := [], users := [] }
        { code := "QR-AAAABBBBCCCCDDDD", scan_type := .QR, location_lat := none,
          location_lng := none, location_address := "", order_id := none }
        9 1000 ⟨2026, 10, 12⟩).2.scans.head?.map ScanEvent.is_suspicious)
      = some false := by
  constructor
  · decide
  · decide

/-- C2 as amended: the rapid-repeat rule counts the ScanEvent rows already in
the ledger for the cylinder within the inclusive 5-minute window; when that
count of prior rows exceeds 5 — the incoming scan being the 7th or later
in-window scan — the scan is flagged suspicious with the rapid-repeat reason
(possibly with the impossible-travel suffix appended); when the count is at
most 5 and the travel rule cannot fire (no truthy latitude), the scan is not
flagged. -/
theorem C2_rapid_repeat
    (hashF : String → String) (fresh : FreshCodes) (db : DB) (req : ScanRequest)
    (userId : Nat) (now : Int) (today : Date) (v : ScanRequest) (c : Cylinder)
    (susp : Bool × String)
    (hv : validateScanRequest req = some v)
    (hrc : resolveCylinder db.cylinders v.scan_type v.code = some c)
    (hd : detectSuspicious db.scans c v now = some susp) :
    (recentScanCount db.scans c.id now > 5 →
      susp.1 = true
      ∧ (susp.2 = "Multiple rapid scans detected - possible cloning attempt"
         ∨ susp.2 = "Multiple rapid scans detected - possible cloning attempt"
             ++ " Impossible location change detected.")
      ∧ (scan_cylinder hashF fresh db req userId now today).2.scans.head?.map
          ScanEvent.is_suspicious = some true)
    ∧ (recentScanCount db.scans c.id now ≤ 5 → truthyQ v.location_lat = false →
        (scan_cylinder hashF fresh db req userId now today).2.scans.head?.map
          ScanEvent.is_suspicious = some false) := by
  have hscan : (scan_cylinder hashF fresh db req userId now today).2.scans.head?.map
      ScanEvent.is_suspicious = some susp.1 := by
    unfold scan_cylinder
    rw [hv]
    dsimp only
    rw [hrc]
    dsimp only
    rw [hd]
    rfl
  constructor
  · intro hrec
    unfold detectSuspicious at hd
    dsimp only at hd
    rw [if_pos hrec] at hd
    have hsusp : susp = (true, "Multiple rapid scans detected - possible cloning attempt")
        ∨ susp = (true, "Multiple rapid scans detected - possible cloning attempt"
            ++ " Impossible location change detected.") := by
      split at hd
      all_goals try split at hd
      all_goals try split at hd
      all_goals try split at hd
      all_goals try split at hd
      all_goals first
        | exact Option.noConfusion hd
        | exact Or.inl (Option.some.inj hd).symm
        | exact Or.inr (Option.some.inj hd).symm
    rcases hsusp with h | h
    · exact ⟨by rw [h], Or.inl (by rw [h]), by rw [hscan, h]⟩
    · exact ⟨by rw [h], Or.inr (by rw [h]), by rw [hscan, h]⟩
  · intro hrec hlat
    unfold detectSuspicious at hd
    dsimp only at hd
    have hnot : ¬ (recentScanCount db.scans c.id now > 5) := by omega
    have hg : ¬ ((truthyQ v.location_lat && truthyQ v.location_lng) = true) := by
      rw [hlat]
      simp
    rw [if_neg hnot, if_neg hg] at hd
    have hsusp : susp = (false, "") := (Option.some.inj hd).symm
    rw [hscan, hsusp]

/-- C2 witness: with 6 prior in-window rows the 7th in-window scan is flagged
suspicious with the rapid-repeat reason. -/
theorem C2_witness :
    recentScanCount
        [priorScan 1000, priorScan 999, priorScan 998, priorScan 997, priorScan 996,
          priorScan 995] 1 1000 > 5
    ∧ ((scan_cylinder sampleHash sampleFresh
        { cylinders := [sampleCyl],
          scans := [priorScan 1000, priorScan 999, priorScan 998, priorScan 997,
            priorScan 996, priorScan 995],
          history := [], orders := [], users := [] }
        { code := "QR-AAAABBBBCCCCDDDD", scan_type := .QR, location_lat := none,
          location_lng := none, location_address := "", order_id := none }
        9 1000 ⟨2026, 10, 12⟩).2.scans.head?.map ScanEvent.is_suspicious)
      = some true := by
  refine ⟨by decide, ?_⟩
  have h := (C2_rapid_repeat sampleHash sampleFresh
    { cylinders := [sampleCyl],
      scans := [priorScan 1000, priorScan 999, priorScan 998, priorScan 997,
        priorScan 996, priorScan 995],
      history := [], orders := [], users := [] }
    { code := "QR-AAAABBBBCCCCDDDD", scan_type := .QR, location_lat := none,
      location_lng := none, location_address := "", order_id := none }
    9 1000 ⟨2026, 10, 12⟩
    { code := "QR-AAAABBBBCCCCDDDD", scan_type := .QR, location_lat := none,
      location_lng := none, location_address := "", order_id := none }
    sampleCyl (true, "Multiple rapid scans detected - possible cloning attempt")
    (by decide) (by decide) (by decide)).1 (by decide)
  exact h.2.2

/-- A prior scan-ledger row bearing coordinates (5, 10) at time 995. -/
def priorCoordScan : ScanEvent :=
  { priorScan 995 with scan_location_lat := some 5, scan_location_lng := some 10 }

/-- C7 counterexample: a scan carrying the geocoordinates (0, 10) — latitude
zero — with a prior coordinate-bearing row 5 seconds old and 5 degrees of
latitude away is NOT flagged: the source guards the travel rule with Python
truthiness of the floats, and latitude 0.0 is falsy, so the rule is skipped
even though the claim requires it to fire. -/
theorem C7_counterexample :
    latestScanWithLat [priorCoordScan] 1 = some priorCoordScan
    ∧ ((1000 : Int) - 995 < 300)
    ∧ ((1 : ℚ)/2 < |(0 : ℚ) - 5|)
    ∧ ((scan_cylinder sampleHash sampleFresh
        { cylinders := [sampleCyl],
          scans := [priorCoordScan],
          history := [], orders := [], users := [] }
        { code := "QR-AAAABBBBCCCCDDDD", scan_type := .QR, location_lat := some 0,
          location_lng := some 10, location_address := "", order_id := none }
        9 1000 ⟨2026, 10, 12⟩).2.scans.head?.map ScanEvent.is_suspicious)
      = some false := by
  refine ⟨by decide, by decide, by norm_num, by decide⟩

/-- C7 as amended: for a scan carrying truthy geocoordinates (latitude and
longitude present and nonzero), when the most recent prior coordinate-bearing
row exists with both coordinates present, lies strictly within 300 seconds of
now, and differs by more than 0.5 degrees in latitude or longitude, the scan
is flagged suspicious and the travel message is appended after any
rapid-repeat reason already set. -/
theorem C7_impossible_travel
    (hashF : String → String) (fresh : FreshCodes) (db : DB) (req : ScanRequest)
    (userId : Nat) (now : Int) (today : Date) (v : ScanRequest) (c : Cylinder)
    (la lo lla llo : ℚ) (last : ScanEvent)
    (hv : validateScanRequest req = some v)
    (hrc : resolveCylinder db.cylinders v.scan_type v.code = some c)
    (hlat : v.location_lat = some la) (hla : la ≠ 0)
    (hlng : v.location_lng = some lo) (hlo : lo ≠ 0)
    (hlast : latestScanWithLat db.scans c.id = some last)
    (hllat : last.scan_location_lat = some lla)
    (hllng : last.scan_location_lng = some llo)
    (htime : now - last.scan_timestamp < 300)
    (hdist : (1 : ℚ)/2 < |la - lla| ∨ (1 : ℚ)/2 < |lo - llo|) :
    detectSuspicious db.scans c v now
      = some (true,
          (if recentScanCount db.scans c.id now > 5
           then "Multiple rapid scans detected - possible cloning attempt" else "")
          ++ " Impossible location change detected.")
    ∧ (scan_cylinder hashF fresh db req userId now today).2.scans.head?.map
        ScanEvent.is_suspicious = some true := by
  have hguard : (truthyQ v.location_lat && truthyQ v.location_lng) = true := by
    rw [hlat, hlng]
    simp [truthyQ, hla, hlo]
  have hdistb : (decide ((1 : ℚ)/2 < |la - lla|) || decide ((1 : ℚ)/2 < |lo - llo|)) = true := by
    rcases hdist with h | h
    · rw [decide_eq_true h]
      simp
    · rw [decide_eq_true h]
      simp
  have hd : detectSuspicious db.scans c v now
      = some (true,
          (if recentScanCount db.scans c.id now > 5
           then "Multiple rapid scans detected - possible cloning attempt" else "")
          ++ " Impossible location change detected.") := by
    unfold detectSuspicious
    dsimp only
    rw [if_pos hguard, hlast]
    dsimp only
    rw [if_pos htime, hlat, hlng, hllat, hllng]
    dsimp only
    rw [if_pos hdistb]
    by_cases hrec : recentScanCount db.scans c.id now > 5
    · rw [if_pos hrec, if_pos hrec]
    · rw [if_neg hrec, if_neg hrec]
  refine ⟨hd, ?_⟩
  unfold scan_cylinder
  rw [hv]
  dsimp only
  rw [hrc]
  dsimp only
  rw [hd]
  rfl

/-- C7 witness: a truthy-coordinate scan 5 seconds after a prior scan one
degree of latitude away is flagged with the travel message appended to the
(empty) rapid-repeat reason. -/
theorem C7_witness :
    detectSuspicious [priorCoordScan] sampleCyl
        { code := "QR-AAAABBBBCCCCDDDD", scan_type := .QR, location_lat := some 6,
          location_lng := some 10, location_address := "", order_id := none }
        1000
      = some (true, " Impossible location change detected.")
    ∧ ((scan_cylinder sampleHash sampleFresh
        { cylinders := [sampleCyl], scans := [priorCoordScan],
          history := [], orders := [], users := [] }
        { code := "QR-AAAABBBBCCCCDDDD", scan_type := .QR, location_lat := some 6,
          location_lng := some 10, location_address := "", order_id := none }
        9 1000 ⟨2026, 10, 12⟩).2.scans.head?.map ScanEvent.is_suspicious)
      = some true := by
  have h := C7_impossible_travel sampleHash sampleFresh
    { cylinders := [sampleCyl], scans := [priorCoordScan],
      history := [], orders := [], users := [] }
    { code := "QR-AAAABBBBCCCCDDDD", scan_type := .QR, location_lat := some 6,
      location_lng := some 10, location_address := "", order_id := none }
    9 1000 ⟨2026, 10, 12⟩
    { code := "QR-AAAABBBBCCCCDDDD", scan_type := .QR, location_lat := some 6,
      location_lng := some 10, location_address := "", order_id := none }
    sampleCyl 6 10 5 10 priorCoordScan
    (by decide) (by decide) rfl (by decide) rfl (by decide) (by decide) rfl rfl
    (by decide) (Or.inl (by norm_num))
  have h1 := h.1
  have hno : ¬ (recentScanCount [priorCoordScan] sampleCyl.id 1000 > 5) := by decide
  rw [if_neg hno] at h1
  exact ⟨h1, h.2⟩

/-- Spec formulation: the registration failure conditions the claim lists
(note: no condition about the expiry date lying in the past). -/
def specRegistrationFails (cyls : List Cylinder) (r : RegRequest) (today : Date) : Bool :=
  decide (r.serial_number.length < 5) ||
  !(r.serial_number.data.all (fun ch => ch.isAlphanum || ch == '-')) ||
  !(cyls.all (fun c => c.serial_number != r.serial_number)) ||
  decide (r.capacity_kg ≤ 0) || decide (100 < r.capacity_kg) ||
  today.ltb r.manufacturing_date ||
  r.manufacturing_date.ltb (today.addYears (-20)) ||
  r.expiry_date.leb r.manufacturing_date ||
  !(r.expiry_date.leb (r.manufacturing_date.addYears 20))

/-- A well-formed registration request. -/
def rGood : RegRequest :=
  { serial_number := "CYL-2024-001", cylinder_type := "13KG", capacity_kg := 13,
    manufacturer := "M", manufacturing_date := ⟨2024, 1, 1⟩, expiry_date := ⟨2039, 1, 1⟩ }

/-- A registration request whose expiry date lies in the past but which meets
every condition the claim lists. -/
def rPastExpiry : RegRequest :=
  { rGood with serial_number := "CYL-2010-777",
               manufacturing_date := ⟨2010, 1, 1⟩, expiry_date := ⟨2020, 1, 1⟩ }

/-- An empty store. -/
def emptyDb : DB :=
  { cylinders := [], scans := [], history := [], orders := [], users := [] }

/-- C8 counterexample: a request with an expiry date in the past (but after
the manufacturing date and within 20 years of it) violates none of the
conditions the claim lists, yet registration fails with a validation error,
because `validate_expiry_date` also requires the expiry date to be in the
future. -/
theorem C8_counterexample :
    specRegistrationFails [] rPastExpiry ⟨2026, 10, 12⟩ = false
    ∧ (register_cylinder sampleHash sampleFresh 1 emptyDb rPastExpiry
        ⟨2026, 10, 12⟩ 9).1 = .validationError := by
  exact ⟨by decide, by decide⟩

/-- The creation-time fields of a cylinder row the registration contract
promises. -/
def newCylView (c : Cylinder) : Status × Bool × Bool × Nat × Nat :=
  (c.status, c.is_authentic, c.is_tampered, c.total_fills, c.total_scans)

/-- C8 as amended: registration fails with a validation error exactly when one
of the source checks rejects — stripped serial shorter than 5, serial with
hyphens removed empty or not alphanumeric, serial already stored, capacity
not in (0, 100], manufacturing date in the future or more than 20 years past,
expiry date not after today, expiry not after manufacturing, or expiry more
than 20 years after manufacturing; otherwise it succeeds and the new row has
status ACTIVE, is_authentic true, is_tampered false and zero counters. -/
theorem C8_registration_validation
    (hashF : String → String) (fresh : FreshCodes) (newId : Nat) (db : DB)
    (r : RegRequest) (today : Date) (userId : Nat) :
    ((register_cylinder hashF fresh newId db r today userId).1 = .validationError
      ↔ ¬(5 ≤ (pythonStrip r.serial_number).length
          ∧ pyIsAlnum (removeHyphens r.serial_number) = true
          ∧ (∀ x ∈ db.cylinders, x.serial_number ≠ r.serial_number)
          ∧ 0 < r.capacity_kg ∧ r.capacity_kg ≤ 100
          ∧ r.manufacturing_date.leb today = true
          ∧ r.manufacturing_date.ltb (today.addYears (-20)) = false
          ∧ today.ltb r.expiry_date = true
          ∧ r.manufacturing_date.ltb r.expiry_date = true
          ∧ r.expiry_date.leb (r.manufacturing_date.addYears 20) = true))
    ∧ (registrationValid db.cylinders r today = true →
        (register_cylinder hashF fresh newId db r today userId).2.cylinders.map newCylView
          = (Status.ACTIVE, true, false, 0, 0) :: db.cylinders.map newCylView) := by
  have hvalid : registrationValid db.cylinders r today = true ↔
      (5 ≤ (pythonStrip r.serial_number).length
        ∧ pyIsAlnum (removeHyphens r.serial_number) = true
        ∧ (∀ x ∈ db.cylinders, x.serial_number ≠ r.serial_number)
        ∧ 0 < r.capacity_kg ∧ r.capacity_kg ≤ 100
        ∧ r.manufacturing_date.leb today = true
        ∧ r.manufacturing_date.ltb (today.addYears (-20)) = false
        ∧ today.ltb r.expiry_date = true
        ∧ r.manufacturing_date.ltb r.expiry_date = true
        ∧ r.expiry_date.leb (r.manufacturing_date.addYears 20) = true) := by
    unfold registrationValid serialFormatOk serialUnique capacityOk
      manufacturingDateOk expiryDateOk dateRangeOk
    simp [Bool.and_eq_true, List.all_eq_true, and_assoc]
  constructor
  · by_cases hreg : registrationValid db.cylinders r today = true
    · refine iff_of_false ?_ ?_
      · unfold register_cylinder
        rw [if_pos hreg]
        simp
      · intro hn
        exact hn (hvalid.mp hreg)
    · refine iff_of_true ?_ ?_
      · unfold register_cylinder
        rw [if_neg hreg]
      · intro hconj
        exact hreg (hvalid.mpr hconj)
  · intro hreg
    unfold register_cylinder
    rw [if_pos hreg]
    dsimp only
    rw [List.map_cons]
    congr 1

/-- C8 witness: the past-expiry request is rejected through the amended
condition, and a well-formed request creates a row with the promised
creation-time fields. -/
theorem C8_witness :
    (register_cylinder sampleHash sampleFresh 1 emptyDb rPastExpiry
        ⟨2026, 10, 12⟩ 9).1 = .validationError
    ∧ (register_cylinder sampleHash sampleFresh 1 emptyDb rGood
        ⟨2026, 10, 12⟩ 9).2.cylinders.map newCylView
      = [(Status.ACTIVE, true, false, 0, 0)] := by
  constructor
  · exact (C8_registration_validation sampleHash sampleFresh 1 emptyDb rPastExpiry
      ⟨2026, 10, 12⟩ 9).1.mpr
      (fun hconj => by
        have h8 := hconj.2.2.2.2.2.2.2.1
        revert h8
        decide)
  · have h := (C8_registration_validation sampleHash sampleFresh 1 emptyDb rGood
      ⟨2026, 10, 12⟩ 9).2 (by decide)
    rw [h]
    rfl

end Greenwells
